import Mathlib

/-!
Verification of the telemetry delivery engine of this repository.

The engine lives in `src/unnamed/part_000` and `src/unnamed/part_001`
(three near-identical `class TelemetryPlugin` variants) and the ingestion
endpoint in `src/backend/server.js`.  The embedding below translates the
queue/flush/retry core literally:

* the JS array `this.eventQueue` becomes a `List Event` whose head is the
  oldest element (`shift` = `tail`, `push` = `++ [e]`, `unshift` = `e :: q`,
  `splice(0, n)` = `take n` / `drop n`);
* the single-threaded async runtime becomes a small-step machine: a step is
  either a `record` (producer call), the synchronous prefix of `flushQueue`
  up to its `await fetch` (`flush`), the firing of a pending retry timer
  (`retryFire`), or the resolution of the awaited send (`complete`), which
  runs the rest of `flushQueue` (success path, or `handleFailedBatch` on
  failure, then `isSending = false`);
* the three source variants differ only inside `handleFailedBatch`:
  `part_001` lines 103-120 computes the backoff from the highest retry count
  of the batch and warns on each dropped event; `part_000` lines 179-196
  computes it from `batch[0]` and warns on each dropped event; `part_001`
  lines 373-384 computes it from `batch[0]` and drops silently.  The
  `Variant` parameter selects among them.
-/

namespace VideoTelemetry

/-- A telemetry event.  The payload is opaque to the delivery engine except
for the `_retryCount` field the engine owns; `id` stands for the rest of the
payload and identifies the event.  `retryCount : Nat` uses `0` both for the
JS value `0` and for an absent field: the code only reads `_retryCount`
through `x || 0` (in `enqueue`) or after having written it, and `0 || 0 = 0`
in JS, so the two states are indistinguishable to the engine. -/
structure Event where
  id : Nat
  retryCount : Nat
deriving DecidableEq, Repr, Inhabited

/-- The `this.config` object built in the constructor.  Every field is
filled there via `config.x || default` with a positive default, so in any
constructed plugin each numeric field is positive; theorems that need this
take it as an explicit hypothesis. -/
structure Config where
  flushIntervalMs : Nat
  maxBatchSize : Nat
  maxQueueSize : Nat
  maxRetries : Nat
  backoffBaseMs : Nat
deriving DecidableEq, Repr

/-- `enqueue(payload)` (`part_001` lines 53-61, `part_000` lines 136-143):
if `eventQueue.length >= maxQueueSize` drop the oldest element (`shift`),
then set `payload._retryCount = payload._retryCount || 0` and `push`.
On the `Nat`-valued model field the `|| 0` normalisation is the identity. -/
def enqueue (cfg : Config) (q : List Event) (e : Event) : List Event :=
  let q2 := if cfg.maxQueueSize ≤ q.length then q.tail else q
  let e2 : Event := { e with retryCount := e.retryCount }
  q2 ++ [e2]

/-- `event._retryCount++` applied to one event of a failed batch. -/
def bumpRC (e : Event) : Event :=
  { e with retryCount := e.retryCount + 1 }

/-- The `batch.forEach(...)` loop of `handleFailedBatch`, threading the
queue being `unshift`ed onto and the list of dropped-event diagnostics
(the `console.warn("Dropping event ...")` calls).  `report` is `false` for
the `part_001` lines 373-379 variant, whose `if` has no `else` branch. -/
def requeueLoop (cfg : Config) (report : Bool) :
    List Event → List Event → List Event → List Event × List Event
  | [], q, rep => (q, rep)
  | e :: rest, q, rep =>
      let e2 := bumpRC e
      if e2.retryCount ≤ cfg.maxRetries then
        requeueLoop cfg report rest (e2 :: q) rep
      else
        requeueLoop cfg report rest q (if report then rep ++ [e2] else rep)

/-- The events of a failed batch that remain after the retry-count bump:
those with `_retryCount <= maxRetries` after the increment. -/
def survivors (cfg : Config) (batch : List Event) : List Event :=
  (batch.map bumpRC).filter fun e => e.retryCount ≤ cfg.maxRetries

/-- The events of a failed batch discarded after the retry-count bump. -/
def droppedOf (cfg : Config) (batch : List Event) : List Event :=
  (batch.map bumpRC).filter fun e => ¬ e.retryCount ≤ cfg.maxRetries

/-- The retry counts of a batch after the `forEach` loop incremented each
event once, i.e. what `batch.map(e => e._retryCount)` reads post-loop. -/
def postCounts (batch : List Event) : List Nat :=
  (batch.map bumpRC).map Event.retryCount

/-- `Math.max(...l)` for a list of naturals; on the lists the program builds
(retry counts after an increment, hence all positive, of a non-empty batch)
folding from `0` agrees with the JS spread form. -/
def listMax (l : List Nat) : Nat := l.foldl max 0

/-- `const highestRetry = Math.max(...batch.map(e => e._retryCount))`
(`part_001` line 114), read after the loop incremented every count. -/
def highestRetry (batch : List Event) : Nat := listMax (postCounts batch)

/-- `batch[0]._retryCount` read after the loop (`part_000` line 189,
`part_001` line 381).  An empty batch is a JS crash (`batch[0]` is
`undefined`) and is unreachable, since a flush only starts on a non-empty
queue; `headD default` is the modelling choice for that dead case. -/
def firstRetry (batch : List Event) : Nat :=
  ((batch.map bumpRC).headD default).retryCount

/-- `delay = backoffBaseMs * Math.pow(2, highestRetry - 1)`. -/
def delayMax (cfg : Config) (batch : List Event) : Nat :=
  cfg.backoffBaseMs * 2 ^ (highestRetry batch - 1)

/-- `delay = backoffBaseMs * Math.pow(2, batch[0]._retryCount - 1)`. -/
def delayFirst (cfg : Config) (batch : List Event) : Nat :=
  cfg.backoffBaseMs * 2 ^ (firstRetry batch - 1)

/-- Which of the three `TelemetryPlugin` variants is running:
`maxV` = `part_001` lines 103-120, `firstV` = `part_000` lines 179-196,
`silentV` = `part_001` lines 373-384. -/
inductive Variant
  | maxV
  | firstV
  | silentV
deriving DecidableEq, Repr

/-- Whether the variant computes the backoff from the highest retry count
of the batch (`part_001` first variant) or from `batch[0]`. -/
def Variant.usesMax : Variant → Bool
  | .maxV => true
  | .firstV => false
  | .silentV => false

/-- Whether the variant emits a diagnostic for each dropped event
(the `console.warn` in the `else` branch of the requeue loop). -/
def Variant.reports : Variant → Bool
  | .maxV => true
  | .firstV => true
  | .silentV => false

/-- The backoff delay the variant schedules for a failed batch. -/
def batchDelay (v : Variant) (cfg : Config) (batch : List Event) : Nat :=
  if v.usesMax then delayMax cfg batch else delayFirst cfg batch

/-- The mutable plugin state relevant to the delivery engine:
`eventQueue`, `isSending`, the suspended `flushQueue` invocation's local
`batch` (`inflight`), the set of not-yet-fired retry timers of the runtime
(`pendingTimers`, as `(timer id, delay)` pairs), the stored
`this.retryTimer` handle, a fresh-id counter for `setTimeout`, and the list
of dropped-event diagnostics emitted so far. -/
structure PState where
  eventQueue : List Event
  isSending : Bool
  inflight : Option (List Event)
  pendingTimers : List (Nat × Nat)
  retryTimer : Option Nat
  nextTimerId : Nat
  reported : List Event
deriving DecidableEq, Repr

/-- The state of a freshly constructed plugin. -/
def initState : PState :=
  { eventQueue := []
    isSending := false
    inflight := none
    pendingTimers := []
    retryTimer := none
    nextTimerId := 0
    reported := [] }

/-- `clearTimeout(this.retryTimer)`: remove the timer whose id is the
stored handle (if any) from the runtime's pending set. -/
def clearRetryTimer (s : PState) : List (Nat × Nat) :=
  match s.retryTimer with
  | none => s.pendingTimers
  | some h => s.pendingTimers.filter fun t => ¬ t.1 = h

/-- `handleFailedBatch(batch)`: bump every event's retry count and
`unshift` the survivors (warning on the dropped ones in the reporting
variants), compute the backoff delay, `clearTimeout` the previous retry
timer and `setTimeout` a new one. -/
def handleFailedBatch (v : Variant) (cfg : Config) (batch : List Event)
    (s : PState) : PState :=
  let qr := requeueLoop cfg v.reports batch s.eventQueue s.reported
  { s with
    eventQueue := qr.1
    reported := qr.2
    pendingTimers := clearRetryTimer s ++ [(s.nextTimerId, batchDelay v cfg batch)]
    retryTimer := some s.nextTimerId
    nextTimerId := s.nextTimerId + 1 }

/-- The synchronous prefix of `flushQueue()` up to the `await fetch`:
return unchanged if already sending or the queue is empty, return unchanged
if `!navigator.onLine`, otherwise set `isSending = true` and
`splice(0, maxBatchSize)` the batch out of the queue. -/
def flushStartFn (cfg : Config) (online : Bool) (s : PState) : PState :=
  if s.isSending = true ∨ s.eventQueue.length = 0 then s
  else if online = false then s
  else
    { s with
      isSending := true
      inflight := some (s.eventQueue.take cfg.maxBatchSize)
      eventQueue := s.eventQueue.drop cfg.maxBatchSize }

/-- One unit of work of the single-threaded runtime. -/
inductive Label
  | record (e : Event)
  | flush (online : Bool)
  | retryFire (id : Nat) (online : Bool)
  | complete (ok : Bool)

/-- One step of the machine.
`record e` is a producer call reaching `enqueue`.
`flush online` is any call of `flushQueue` (periodic tick, `online`
handler) running its synchronous prefix.
`retryFire id online` is the retry timer `id` firing: the runtime removes
it from the pending set and its callback calls `flushQueue`; an id with no
pending timer does nothing.
`complete ok` is the awaited `fetch` of the suspended `flushQueue`
resolving: on failure run `handleFailedBatch` on the in-flight batch, then
in either case clear `isSending`; with no send in flight nothing happens. -/
def step (v : Variant) (cfg : Config) (s : PState) : Label → PState
  | .record e => { s with eventQueue := enqueue cfg s.eventQueue e }
  | .flush online => flushStartFn cfg online s
  | .retryFire id online =>
      if s.pendingTimers.any fun t => t.1 = id then
        flushStartFn cfg online
          { s with pendingTimers := s.pendingTimers.filter fun t => ¬ t.1 = id }
      else s
  | .complete ok =>
      match s.inflight with
      | none => s
      | some batch =>
          let s2 := if ok then s else handleFailedBatch v cfg batch s
          { s2 with isSending := false, inflight := none }

/-- Run the machine from an arbitrary state. -/
def runFrom (v : Variant) (cfg : Config) (s : PState) (ls : List Label) : PState :=
  ls.foldl (step v cfg) s

/-- Run the machine from the freshly constructed plugin state. -/
def run (v : Variant) (cfg : Config) (ls : List Label) : PState :=
  runFrom v cfg initState ls

/-! ### Invariant predicates on machine states -/

/-- At most one pending retry timer, and it is the one whose handle is
stored in `this.retryTimer`. -/
def TimerInv (s : PState) : Prop :=
  s.pendingTimers = [] ∨ ∃ h d, s.retryTimer = some h ∧ s.pendingTimers = [(h, d)]

/-- `isSending` is set exactly while a send is in flight. -/
def FlagInv (s : PState) : Prop := s.isSending = s.inflight.isSome

/-- Queue-length bookkeeping: the queue holds at most
`maxQueueSize + maxBatchSize` events, and while a batch is in flight the
batch is at most `maxBatchSize` long and the queue at most `maxQueueSize`. -/
def LenInv (cfg : Config) (s : PState) : Prop :=
  s.eventQueue.length ≤ cfg.maxQueueSize + cfg.maxBatchSize ∧
    ∀ b, s.inflight = some b →
      b.length ≤ cfg.maxBatchSize ∧ s.eventQueue.length ≤ cfg.maxQueueSize

/-! ### The ingestion endpoint, `src/backend/server.js` -/

/-- The request body of `POST /telemetry`: either a JSON array of event
objects or a single event object.  `α` is the opaque event-object type. -/
inductive Body (α : Type)
  | arr (es : List α)
  | single (e : α)

/-- `const events = Array.isArray(req.body) ? req.body : [req.body]`
(`server.js` line 10). -/
def Body.toEvents {α : Type} : Body α → List α
  | .arr es => es
  | .single e => [e]

/-- The HTTP response of the handler: `res.json({ ok: true })` or
`res.status(500).json(...)` from the catch block. -/
inductive Resp
  | ok
  | err500
deriving DecidableEq, Repr

/-- The `for (const e of events) { ... await pool.query(INSERT ...) }` loop
inside the `try` block (`server.js` lines 13-151).  The database is the
list of inserted rows; `insOk` says whether the INSERT of a given event
succeeds.  Events are inserted one at a time in batch order; the first
failing INSERT throws out of the loop, keeping every row inserted so far
(there is no transaction or rollback), and the `catch` block answers 500;
if the loop completes, the handler answers `ok: true` (line 153). -/
def insertLoop {α : Type} (insOk : α → Bool) : List α → List α → List α × Resp
  | [], db => (db, .ok)
  | e :: rest, db =>
      if insOk e then insertLoop insOk rest (db ++ [e]) else (db, .err500)

/-- The whole `app.post("/telemetry")` handler, from request body and
current database contents to final database contents and response. -/
def handleTelemetry {α : Type} (insOk : α → Bool) (db : List α) (body : Body α) :
    List α × Resp :=
  insertLoop insOk body.toEvents db

/-! ### Concrete configurations and traces used by witnesses and
counterexamples -/

/-- `maxBatchSize = 1`, `maxQueueSize = 2`, `maxRetries = 3`,
`backoffBaseMs = 1000`. -/
def cfgC1 : Config := ⟨5000, 1, 2, 3, 1000⟩

/-- Record two events, start a flush (taking event 1), record a third event
while the send is in flight, then let the send fail. -/
def traceC1 : List Label :=
  [.record ⟨1, 0⟩, .record ⟨2, 0⟩, .flush true, .record ⟨3, 0⟩, .complete false]

/-- `maxBatchSize = 2`, `maxQueueSize = 10`, `maxRetries = 3`,
`backoffBaseMs = 1000`. -/
def cfgC2 : Config := ⟨5000, 2, 10, 3, 1000⟩

/-- Record events 1 and 2, start a flush (taking both), record event 3
while the send is in flight. -/
def traceC2 : List Label :=
  [.record ⟨1, 0⟩, .record ⟨2, 0⟩, .flush true, .record ⟨3, 0⟩]

/-- `maxBatchSize = 2`, `maxQueueSize = 10`, `maxRetries = 3`,
`backoffBaseMs = 1000`. -/
def cfgC3 : Config := ⟨5000, 2, 10, 3, 1000⟩

/-- A run whose final in-flight batch holds events with distinct retry
counts: event 1 fails alone once, then events 1 and 2 fail together (the
requeue reverses them), and the third flush takes the mixed batch
`[event 2 (count 1), event 1 (count 2)]`. -/
def traceC3 : List Label :=
  [.record ⟨1, 0⟩, .flush true, .complete false, .record ⟨2, 0⟩,
    .flush true, .complete false, .flush true]

/-- Record two fresh events and start a flush that takes both. -/
def traceC3w : List Label := [.record ⟨1, 0⟩, .record ⟨2, 0⟩, .flush true]

/-- `maxBatchSize = 2`, `maxQueueSize = 10`, `maxRetries = 3`,
`backoffBaseMs = 1000`. -/
def cfgC4 : Config := ⟨5000, 2, 10, 3, 1000⟩

/-- Record one event and start a flush, leaving a send in flight. -/
def traceC4 : List Label := [.record ⟨1, 0⟩, .flush true]

/-- `maxBatchSize = 1`, `maxQueueSize = 10`, `maxRetries = 1`,
`backoffBaseMs = 1000`. -/
def cfgC5 : Config := ⟨5000, 1, 10, 1, 1000⟩

/-- Record one event, let its first send fail (retry count becomes 1), and
start the retry flush, so the in-flight batch holds the event at its
maximum retry count. -/
def traceC5 : List Label :=
  [.record ⟨1, 0⟩, .flush true, .complete false, .flush true]

/-- `maxBatchSize = 2`, `maxQueueSize = 10`, `maxRetries = 3`,
`backoffBaseMs = 1000`. -/
def cfgC6 : Config := ⟨5000, 2, 10, 3, 1000⟩

/-- The state after recording one event: not sending, non-empty queue. -/
def stC6 : PState := run .maxV cfgC6 [.record ⟨1, 0⟩]

/-- `maxBatchSize = 20`, `maxQueueSize = 3`, `maxRetries = 3`,
`backoffBaseMs = 1000`. -/
def cfgC7 : Config := ⟨5000, 20, 3, 3, 1000⟩

/-- `maxBatchSize = 1`, `maxQueueSize = 10`, `maxRetries = 1`,
`backoffBaseMs = 1000`. -/
def cfgC9 : Config := ⟨5000, 1, 10, 1, 1000⟩

/-- Record one event, let its first send fail, and start the retry flush,
so the in-flight batch holds only an event already at `maxRetries`. -/
def traceC9 : List Label :=
  [.record ⟨1, 0⟩, .flush true, .complete false, .flush true]

/-! ### Basic lemmas about the machine -/

theorem runFrom_append_single (v : Variant) (cfg : Config) (s : PState)
    (ls : List Label) (l : Label) :
    runFrom v cfg s (ls ++ [l]) = step v cfg (runFrom v cfg s ls) l := by
  simp [runFrom, List.foldl_append]

theorem run_append_single (v : Variant) (cfg : Config) (ls : List Label) (l : Label) :
    run v cfg (ls ++ [l]) = step v cfg (run v cfg ls) l :=
  runFrom_append_single v cfg initState ls l

theorem runFrom_inv (v : Variant) (cfg : Config) (P : PState → Prop)
    (hstep : ∀ s l, P s → P (step v cfg s l)) :
    ∀ (ls : List Label) (s : PState), P s → P (runFrom v cfg s ls) := by
  intro ls
  induction ls with
  | nil => intro s h; exact h
  | cons l rest ih => intro s h; exact ih (step v cfg s l) (hstep s l h)

theorem run_inv (v : Variant) (cfg : Config) (P : PState → Prop)
    (hinit : P initState) (hstep : ∀ s l, P s → P (step v cfg s l)) (ls : List Label) :
    P (run v cfg ls) :=
  runFrom_inv v cfg P hstep ls initState hinit

/-- `flushQueue` never touches the timer bookkeeping or the diagnostics:
only the queue, the flag and the in-flight batch change. -/
theorem flushStartFn_frame (cfg : Config) (online : Bool) (s : PState) :
    (flushStartFn cfg online s).pendingTimers = s.pendingTimers ∧
      (flushStartFn cfg online s).retryTimer = s.retryTimer ∧
      (flushStartFn cfg online s).nextTimerId = s.nextTimerId ∧
      (flushStartFn cfg online s).reported = s.reported := by
  unfold flushStartFn
  split
  · simp
  · split <;> simp

theorem flushStartFn_sending (cfg : Config) (online : Bool) (s : PState)
    (h : s.isSending = true) : flushStartFn cfg online s = s := by
  simp [flushStartFn, h]

theorem flushStartFn_empty (cfg : Config) (online : Bool) (s : PState)
    (h : s.eventQueue = []) : flushStartFn cfg online s = s := by
  simp [flushStartFn, h]

theorem flushStartFn_offline (cfg : Config) (s : PState) :
    flushStartFn cfg false s = s := by
  by_cases h1 : s.isSending = true ∨ s.eventQueue.length = 0 <;>
    simp [flushStartFn, h1]

theorem flushStartFn_proceed (cfg : Config) (s : PState)
    (h1 : s.isSending = false) (h2 : s.eventQueue ≠ []) :
    flushStartFn cfg true s =
      { s with
        isSending := true
        inflight := some (s.eventQueue.take cfg.maxBatchSize)
        eventQueue := s.eventQueue.drop cfg.maxBatchSize } := by
  simp [flushStartFn, h1, List.length_eq_zero, h2]

/-! ### The requeue loop of `handleFailedBatch` -/

theorem requeueLoop_fst (cfg : Config) (report : Bool) (batch : List Event) :
    ∀ q rep, (requeueLoop cfg report batch q rep).1 = (survivors cfg batch).reverse ++ q := by
  induction batch with
  | nil => intro q rep; simp [requeueLoop, survivors]
  | cons e rest ih =>
      intro q rep
      by_cases h : (bumpRC e).retryCount ≤ cfg.maxRetries <;>
        simp [requeueLoop, h, ih, survivors, List.filter_cons]

theorem requeueLoop_snd (cfg : Config) (report : Bool) (batch : List Event) :
    ∀ q rep, (requeueLoop cfg report batch q rep).2
      = rep ++ (if report then droppedOf cfg batch else []) := by
  induction batch with
  | nil => intro q rep; simp [requeueLoop, droppedOf]
  | cons e rest ih =>
      intro q rep
      by_cases h : (bumpRC e).retryCount ≤ cfg.maxRetries
      · have hd : droppedOf cfg (e :: rest) = droppedOf cfg rest := by
          simp [droppedOf, List.filter_cons, h]
        simp [requeueLoop, h, ih, hd]
      · have hd : droppedOf cfg (e :: rest) = bumpRC e :: droppedOf cfg rest := by
          simp [droppedOf, List.filter_cons, h]
        cases report with
        | true => simp [requeueLoop, h, ih, hd]
        | false => simp [requeueLoop, h, ih]

theorem handleFailedBatch_eventQueue (v : Variant) (cfg : Config)
    (batch : List Event) (s : PState) :
    (handleFailedBatch v cfg batch s).eventQueue
      = (survivors cfg batch).reverse ++ s.eventQueue := by
  simp [handleFailedBatch, requeueLoop_fst]

theorem handleFailedBatch_reported (v : Variant) (cfg : Config)
    (batch : List Event) (s : PState) :
    (handleFailedBatch v cfg batch s).reported
      = s.reported ++ (if v.reports then droppedOf cfg batch else []) := by
  simp [handleFailedBatch, requeueLoop_snd]

theorem handleFailedBatch_frame (v : Variant) (cfg : Config)
    (batch : List Event) (s : PState) :
    (handleFailedBatch v cfg batch s).isSending = s.isSending ∧
      (handleFailedBatch v cfg batch s).inflight = s.inflight := by
  simp [handleFailedBatch]

/-! ### Reachable-state invariants -/

theorem clearRetryTimer_eq_nil (s : PState) (h : TimerInv s) :
    clearRetryTimer s = [] := by
  rcases h with h | ⟨hd, d, hrt, hp⟩
  · cases hrt : s.retryTimer <;> simp [clearRetryTimer, hrt, h]
  · simp [clearRetryTimer, hrt, hp]

/-- On any reachable state, `handleFailedBatch` first cancels the single
previously pending retry timer (if any), so afterwards exactly the newly
scheduled timer is pending. -/
theorem handleFailedBatch_pendingTimers (v : Variant) (cfg : Config)
    (batch : List Event) (s : PState) (h : TimerInv s) :
    (handleFailedBatch v cfg batch s).pendingTimers
      = [(s.nextTimerId, batchDelay v cfg batch)] := by
  simp [handleFailedBatch, clearRetryTimer_eq_nil s h]

theorem timerInv_flushStartFn (cfg : Config) (online : Bool) (s : PState)
    (h : TimerInv s) : TimerInv (flushStartFn cfg online s) := by
  have hf := flushStartFn_frame cfg online s
  unfold TimerInv at h ⊢
  rw [hf.1, hf.2.1]
  exact h

theorem timerInv_step (v : Variant) (cfg : Config) :
    ∀ (s : PState) (l : Label), TimerInv s → TimerInv (step v cfg s l) := by
  intro s l h
  cases l with
  | record e => exact h
  | flush online => exact timerInv_flushStartFn cfg online s h
  | retryFire id online =>
      simp only [step]
      split
      · apply timerInv_flushStartFn
        rcases h with h0 | ⟨hh, d, hrt, hp⟩
        · left; simp [h0]
        · by_cases hid : hh = id
          · left; simp [hp, List.filter_cons, hid]
          · right; exact ⟨hh, d, hrt, by simp [hp, List.filter_cons, hid]⟩
      · exact h
  | complete ok =>
      simp only [step]
      cases hin : s.inflight with
      | none => exact h
      | some batch =>
          cases ok with
          | true => exact h
          | false =>
              right
              refine ⟨s.nextTimerId, batchDelay v cfg batch, ?_, ?_⟩
              · simp [handleFailedBatch]
              · simpa using handleFailedBatch_pendingTimers v cfg batch s h

theorem flagInv_flushStartFn (cfg : Config) (online : Bool) (s : PState)
    (h : FlagInv s) : FlagInv (flushStartFn cfg online s) := by
  unfold flushStartFn
  split
  · exact h
  · split
    · exact h
    · simp [FlagInv]

theorem flagInv_step (v : Variant) (cfg : Config) :
    ∀ (s : PState) (l : Label), FlagInv s → FlagInv (step v cfg s l) := by
  intro s l h
  cases l with
  | record e => exact h
  | flush online => exact flagInv_flushStartFn cfg online s h
  | retryFire id online =>
      simp only [step]
      split
      · exact flagInv_flushStartFn cfg online _ h
      · exact h
  | complete ok =>
      simp only [step]
      cases hin : s.inflight with
      | none => exact h
      | some batch => cases ok <;> simp [FlagInv]

theorem survivors_length_le (cfg : Config) (batch : List Event) :
    (survivors cfg batch).length ≤ batch.length :=
  le_trans (List.length_filter_le _ _) (le_of_eq (List.length_map _ _))

theorem enqueue_length_le (cfg : Config) (q : List Event) (e : Event)
    (hq : 0 < cfg.maxQueueSize) :
    (enqueue cfg q e).length ≤ max q.length cfg.maxQueueSize := by
  unfold enqueue
  by_cases h : cfg.maxQueueSize ≤ q.length <;>
    simp only [h, if_true, if_false, List.length_append, List.length_tail,
      List.length_cons, List.length_nil] <;> omega

theorem lenInv_flushStartFn (cfg : Config) (online : Bool) (s : PState)
    (h : LenInv cfg s) : LenInv cfg (flushStartFn cfg online s) := by
  unfold flushStartFn
  split
  · exact h
  · split
    · exact h
    · have h1 := h.1
      refine ⟨?_, ?_⟩
      · simp only [List.length_drop]; omega
      · intro b hb
        have hb2 : s.eventQueue.take cfg.maxBatchSize = b := by
          simpa using hb
        subst hb2
        refine ⟨?_, ?_⟩
        · simp only [List.length_take]; omega
        · simp only [List.length_drop]; omega

theorem lenInv_step (v : Variant) (cfg : Config) (hq : 0 < cfg.maxQueueSize) :
    ∀ (s : PState) (l : Label), LenInv cfg s → LenInv cfg (step v cfg s l) := by
  intro s l h
  cases l with
  | record e =>
      have hle := enqueue_length_le cfg s.eventQueue e hq
      refine ⟨?_, ?_⟩
      · have h1 := h.1
        simp only [step]; omega
      · intro b hb
        simp only [step] at hb
        have h2 := h.2 b hb
        simp only [step]; omega
  | flush online => exact lenInv_flushStartFn cfg online s h
  | retryFire id online =>
      simp only [step]
      split
      · apply lenInv_flushStartFn
        exact ⟨h.1, fun b hb => h.2 b hb⟩
      · exact h
  | complete ok =>
      simp only [step]
      cases hin : s.inflight with
      | none => exact h
      | some batch =>
          cases ok with
          | true => exact ⟨h.1, by intro b hb; simp at hb⟩
          | false =>
              have hb := h.2 batch hin
              have hsl := survivors_length_le cfg batch
              refine ⟨?_, by intro b hb2; simp at hb2⟩
              have hq2 : (handleFailedBatch v cfg batch s).eventQueue.length
                  = (survivors cfg batch).length + s.eventQueue.length := by
                simp [handleFailedBatch_eventQueue]
              simp only []
              show (handleFailedBatch v cfg batch s).eventQueue.length
                ≤ cfg.maxQueueSize + cfg.maxBatchSize
              omega

theorem timerInv_run (v : Variant) (cfg : Config) (ls : List Label) :
    TimerInv (run v cfg ls) :=
  run_inv v cfg TimerInv (Or.inl rfl) (timerInv_step v cfg) ls

theorem flagInv_run (v : Variant) (cfg : Config) (ls : List Label) :
    FlagInv (run v cfg ls) :=
  run_inv v cfg FlagInv rfl (flagInv_step v cfg) ls

theorem lenInv_run (v : Variant) (cfg : Config) (hq : 0 < cfg.maxQueueSize)
    (ls : List Label) : LenInv cfg (run v cfg ls) :=
  run_inv v cfg (LenInv cfg)
    ⟨by simp [initState], by intro b hb; simp [initState] at hb⟩
    (lenInv_step v cfg hq) ls

/-! ### The effect of a failed send on a reachable state -/

theorem run_complete_false_eventQueue (v : Variant) (cfg : Config)
    (ls : List Label) (batch : List Event)
    (h : (run v cfg ls).inflight = some batch) :
    (run v cfg (ls ++ [.complete false])).eventQueue
      = (survivors cfg batch).reverse ++ (run v cfg ls).eventQueue := by
  rw [run_append_single]
  simp only [step, h]
  simp [handleFailedBatch_eventQueue]

theorem run_complete_false_reported (v : Variant) (cfg : Config)
    (ls : List Label) (batch : List Event)
    (h : (run v cfg ls).inflight = some batch) :
    (run v cfg (ls ++ [.complete false])).reported
      = (run v cfg ls).reported
        ++ (if v.reports then droppedOf cfg batch else []) := by
  rw [run_append_single]
  simp only [step, h]
  simp [handleFailedBatch_reported]

theorem run_complete_false_pendingTimers (v : Variant) (cfg : Config)
    (ls : List Label) (batch : List Event)
    (h : (run v cfg ls).inflight = some batch) :
    (run v cfg (ls ++ [.complete false])).pendingTimers
      = [((run v cfg ls).nextTimerId, batchDelay v cfg batch)] := by
  rw [run_append_single]
  simp only [step, h]
  simpa using
    handleFailedBatch_pendingTimers v cfg batch (run v cfg ls) (timerInv_run v cfg ls)

/-! ### The two delay formulas on batches with uniform retry counts -/

theorem foldl_max_const (n : Nat) :
    ∀ (l : List Nat) (a : Nat), (∀ x ∈ l, x = n) → l ≠ [] → l.foldl max a = max a n := by
  intro l
  induction l with
  | nil => intro a _ hne; exact absurd rfl hne
  | cons x rest ih =>
      intro a h hne
      have hx : x = n := h x (by simp)
      subst hx
      by_cases hr : rest = []
      · subst hr; simp [List.foldl]
      · rw [List.foldl_cons, ih (max a x) (fun y hy => h y (by simp [hy])) hr,
          max_assoc, max_self]

theorem highestRetry_uniform (batch : List Event) (n : Nat)
    (hne : batch ≠ []) (hn : ∀ e ∈ batch, e.retryCount + 1 = n) :
    highestRetry batch = n := by
  unfold highestRetry listMax postCounts
  rw [foldl_max_const n _ 0 ?_ ?_]
  · simp
  · intro x hx
    simp only [List.mem_map] at hx
    obtain ⟨e2, ⟨e, he, rfl⟩, rfl⟩ := hx
    simpa [bumpRC] using hn e he
  · simp [hne]

theorem firstRetry_uniform (batch : List Event) (n : Nat)
    (hne : batch ≠ []) (hn : ∀ e ∈ batch, e.retryCount + 1 = n) :
    firstRetry batch = n := by
  cases batch with
  | nil => exact absurd rfl hne
  | cons e rest => simpa [firstRetry, bumpRC] using hn e (by simp)

/-! ### The insert loop of the ingestion endpoint -/

theorem insertLoop_spec {α : Type} (insOk : α → Bool) :
    ∀ (es db : List α),
      insertLoop insOk es db
        = (db ++ es.takeWhile insOk,
           if es.all insOk then Resp.ok else Resp.err500) := by
  intro es
  induction es with
  | nil => intro db; simp [insertLoop]
  | cons e rest ih =>
      intro db
      by_cases h : insOk e = true
      · simp [insertLoop, h, ih, List.takeWhile_cons, List.all_cons]
      · simp [insertLoop, h, List.takeWhile_cons, List.all_cons,
          Bool.eq_false_iff.mpr h]

/-! ### The claims -/

/-- C1 (counterexample): with `maxQueueSize = 2` and `maxBatchSize = 1`,
record two events, start a flush taking the oldest, record a third event
while the send is in flight (queue back at the cap of 2), then let the send
fail: `handleFailedBatch` unshifts the survivor with no capacity check and
the queue reaches length 3, so `length <= maxQueueSize` does not hold on
every reachable state. -/
theorem c1_counterexample :
    ¬ (run .maxV cfgC1 traceC1).eventQueue.length ≤ cfgC1.maxQueueSize := by
  decide

/-- C1 (amended): in every reachable state of any variant the queue length
is at most `maxQueueSize + maxBatchSize` (the requeue of survivors of a
failed batch can exceed `maxQueueSize` by at most the batch size; `enqueue`
alone never exceeds `maxQueueSize`).  The positivity hypothesis reflects
the constructor default `config.maxQueueSize || 1000`. -/
theorem c1_queue_bound (v : Variant) (cfg : Config) (ls : List Label)
    (hq : 0 < cfg.maxQueueSize) :
    (run v cfg ls).eventQueue.length ≤ cfg.maxQueueSize + cfg.maxBatchSize :=
  (lenInv_run v cfg hq ls).1

/-- C1 witness: the bound evaluated on the counterexample trace, where the
queue length is 3 = maxQueueSize + maxBatchSize. -/
theorem c1_queue_bound_witness :
    0 < cfgC1.maxQueueSize ∧
      (run .maxV cfgC1 traceC1).eventQueue.length
        ≤ cfgC1.maxQueueSize + cfgC1.maxBatchSize :=
  ⟨by decide, c1_queue_bound .maxV cfgC1 traceC1 (by decide)⟩

/-- C2 (counterexample): the failed batch is `[event 1, event 2]`, both
survive, and event 3 was recorded during the send; the claim predicts the
queue `[event 1, event 2, event 3]` (survivors in batch order, then the
queue at failure time), but `unshift` inside `forEach` reverses the
survivors and the code produces `[event 2, event 1, event 3]`. -/
theorem c2_counterexample :
    (run .maxV cfgC2 traceC2).inflight = some [⟨1, 0⟩, ⟨2, 0⟩] ∧
      (run .maxV cfgC2 traceC2).eventQueue = [⟨3, 0⟩] ∧
      survivors cfgC2 [⟨1, 0⟩, ⟨2, 0⟩] = [⟨1, 1⟩, ⟨2, 1⟩] ∧
      (run .maxV cfgC2 (traceC2 ++ [.complete false])).eventQueue
        = [⟨2, 1⟩, ⟨1, 1⟩, ⟨3, 0⟩] ∧
      ([⟨2, 1⟩, ⟨1, 1⟩, ⟨3, 0⟩] : List Event)
        ≠ [⟨1, 1⟩, ⟨2, 1⟩] ++ [⟨3, 0⟩] := by
  decide

/-- C2 (amended): after a failed send, the queue equals the surviving
events of the batch in REVERSED batch order, followed by the queue contents
at the moment of failure (so survivors are still ahead of every event
recorded after the batch was taken, but their relative order is reversed).
Holds for all three variants. -/
theorem c2_requeue_reversed (v : Variant) (cfg : Config) (ls : List Label)
    (batch : List Event) (h : (run v cfg ls).inflight = some batch) :
    (run v cfg (ls ++ [.complete false])).eventQueue
      = (survivors cfg batch).reverse ++ (run v cfg ls).eventQueue :=
  run_complete_false_eventQueue v cfg ls batch h

/-- C2 witness: the amended statement evaluated on the counterexample
trace. -/
theorem c2_requeue_reversed_witness :
    (run .maxV cfgC2 traceC2).inflight = some [⟨1, 0⟩, ⟨2, 0⟩] ∧
      (run .maxV cfgC2 (traceC2 ++ [.complete false])).eventQueue
        = (survivors cfgC2 [⟨1, 0⟩, ⟨2, 0⟩]).reverse
          ++ (run .maxV cfgC2 traceC2).eventQueue :=
  ⟨by decide, c2_requeue_reversed .maxV cfgC2 traceC2 [⟨1, 0⟩, ⟨2, 0⟩] (by decide)⟩

/-- C3 (counterexample): in the `part_000` variant, the reachable failed
batch `[event 2 (retry count 1), event 1 (retry count 2)]` is given delay
`backoffBaseMs * 2 ^ (batch[0] post-increment count - 1) = 1000 * 2 = 2000`,
whereas the claimed formula uses the maximum post-increment count 3 and
gives 4000. -/
theorem c3_counterexample :
    (run .firstV cfgC3 traceC3).inflight = some [⟨2, 1⟩, ⟨1, 2⟩] ∧
      (run .firstV cfgC3 (traceC3 ++ [.complete false])).pendingTimers.map Prod.snd
        = [2000] ∧
      highestRetry [⟨2, 1⟩, ⟨1, 2⟩] = 3 ∧
      cfgC3.backoffBaseMs * 2 ^ (highestRetry [⟨2, 1⟩, ⟨1, 2⟩] - 1) = 4000 ∧
      (2000 : Nat) ≠ 4000 := by
  decide

/-- C3 (amended): the `part_001` first variant schedules exactly
`backoffBaseMs * 2 ^ (m - 1)` with `m` the maximum post-increment retry
count of the failed batch; the `part_000` variant (and the second
`part_001` variant) instead uses the post-increment retry count of the
FIRST event of the batch.  When all events of the batch share the same
post-increment count `n` — in particular for the nth consecutive failure
of the same batch — both formulas give `backoffBaseMs * 2 ^ (n - 1)`. -/
theorem c3_backoff_delay (cfg : Config) (ls1 ls2 : List Label)
    (b1 b2 : List Event) (n : Nat)
    (h1 : (run .maxV cfg ls1).inflight = some b1)
    (h2 : (run .firstV cfg ls2).inflight = some b2)
    (hne : b2 ≠ []) (hn : ∀ e ∈ b2, e.retryCount + 1 = n) :
    (run .maxV cfg (ls1 ++ [.complete false])).pendingTimers.map Prod.snd
        = [cfg.backoffBaseMs * 2 ^ (highestRetry b1 - 1)] ∧
      (run .firstV cfg (ls2 ++ [.complete false])).pendingTimers.map Prod.snd
        = [cfg.backoffBaseMs * 2 ^ (firstRetry b2 - 1)] ∧
      firstRetry b2 = n ∧ highestRetry b2 = n := by
  refine ⟨?_, ?_, firstRetry_uniform b2 n hne hn, highestRetry_uniform b2 n hne hn⟩
  · rw [run_complete_false_pendingTimers .maxV cfg ls1 b1 h1]
    simp [batchDelay, Variant.usesMax, delayMax]
  · rw [run_complete_false_pendingTimers .firstV cfg ls2 b2 h2]
    simp [batchDelay, Variant.usesMax, delayFirst]

/-- C3 witness: a batch of two fresh events (uniform count, n = 1) failing
in both variants; both schedule delay `1000 * 2 ^ 0`. -/
theorem c3_backoff_delay_witness :
    (run .maxV cfgC3 traceC3w).inflight = some [⟨1, 0⟩, ⟨2, 0⟩] ∧
      (run .firstV cfgC3 traceC3w).inflight = some [⟨1, 0⟩, ⟨2, 0⟩] ∧
      (run .maxV cfgC3 (traceC3w ++ [.complete false])).pendingTimers.map Prod.snd
        = [cfgC3.backoffBaseMs * 2 ^ (highestRetry [⟨1, 0⟩, ⟨2, 0⟩] - 1)] ∧
      (run .firstV cfgC3 (traceC3w ++ [.complete false])).pendingTimers.map Prod.snd
        = [cfgC3.backoffBaseMs * 2 ^ (firstRetry [⟨1, 0⟩, ⟨2, 0⟩] - 1)] ∧
      firstRetry [⟨1, 0⟩, ⟨2, 0⟩] = 1 ∧ highestRetry [⟨1, 0⟩, ⟨2, 0⟩] = 1 := by
  have h := c3_backoff_delay cfgC3 traceC3w traceC3w [⟨1, 0⟩, ⟨2, 0⟩]
    [⟨1, 0⟩, ⟨2, 0⟩] 1 (by decide) (by decide) (by decide) (by decide)
  exact ⟨by decide, by decide, h.1, h.2.1, h.2.2.1, h.2.2.2⟩

/-- C4 (confirmed): on every reachable state of every variant, `isSending`
is true exactly while a send is in flight (it is set in the same step that
takes the batch and cleared only by the step in which the send resolves, on
both the success and the failure path of `flushQueue`), and any call of
`flushQueue` made while `isSending` is true returns without changing the
state. -/
theorem c4_single_flight (v : Variant) (cfg : Config) (ls : List Label)
    (online : Bool) :
    (run v cfg ls).isSending = (run v cfg ls).inflight.isSome ∧
      ((run v cfg ls).isSending = true →
        flushStartFn cfg online (run v cfg ls) = run v cfg ls) :=
  ⟨flagInv_run v cfg ls, fun h => flushStartFn_sending cfg online _ h⟩

/-- C4 witness: after starting a flush, `isSending` is true and a further
flush trigger is a no-op. -/
theorem c4_single_flight_witness :
    (run .maxV cfgC4 traceC4).isSending = true ∧
      flushStartFn cfgC4 true (run .maxV cfgC4 traceC4) = run .maxV cfgC4 traceC4 :=
  ⟨by decide, (c4_single_flight .maxV cfgC4 traceC4 true).2 (by decide)⟩

/-- C5 (counterexample): in the second `part_001` variant
(`handleFailedBatch` at lines 373-379, whose `if` has no `else` branch),
an event at `maxRetries` fails again: it is dropped (the queue afterwards
is empty) but no drop diagnostic is emitted, refuting "every dropped event
is reported". -/
theorem c5_counterexample :
    (run .silentV cfgC5 traceC5).inflight = some [⟨1, 1⟩] ∧
      cfgC5.maxRetries < (bumpRC ⟨1, 1⟩).retryCount ∧
      (run .silentV cfgC5 (traceC5 ++ [.complete false])).eventQueue = [] ∧
      (run .silentV cfgC5 (traceC5 ++ [.complete false])).reported = [] := by
  decide

/-- C5 (amended): for every failed batch, every event's retry count is
incremented by exactly 1 (the increment is the only write to the field:
`record`/`enqueue` only normalises an absent field to 0); exactly the
events whose post-increment count is at most `maxRetries` are requeued and
an event is dropped iff its post-increment count exceeds `maxRetries`; the
`part_000` and first `part_001` variants report every dropped event as a
diagnostic, while the second `part_001` variant reports nothing. -/
theorem c5_retry_and_drop (v : Variant) (cfg : Config) (ls : List Label)
    (batch : List Event) (h : (run v cfg ls).inflight = some batch) :
    (run v cfg (ls ++ [.complete false])).eventQueue
        = (survivors cfg batch).reverse ++ (run v cfg ls).eventQueue ∧
      (run v cfg (ls ++ [.complete false])).reported
        = (run v cfg ls).reported
          ++ (if v.reports then droppedOf cfg batch else []) ∧
      (∀ e ∈ batch, (bumpRC e).retryCount = e.retryCount + 1) ∧
      droppedOf cfg batch
        = (batch.map bumpRC).filter fun e => cfg.maxRetries < e.retryCount := by
  refine ⟨run_complete_false_eventQueue v cfg ls batch h,
    run_complete_false_reported v cfg ls batch h,
    fun e _ => rfl, ?_⟩
  unfold droppedOf
  refine List.filter_congr fun e _ => ?_
  rw [decide_eq_decide]
  exact not_le

/-- C5 witness: the reporting variant of the same scenario: the event at
`maxRetries` is dropped from the queue and is reported. -/
theorem c5_retry_and_drop_witness :
    (run .maxV cfgC5 traceC5).inflight = some [⟨1, 1⟩] ∧
      (run .maxV cfgC5 (traceC5 ++ [.complete false])).eventQueue
        = (survivors cfgC5 [⟨1, 1⟩]).reverse ++ (run .maxV cfgC5 traceC5).eventQueue ∧
      (run .maxV cfgC5 (traceC5 ++ [.complete false])).reported
        = (run .maxV cfgC5 traceC5).reported
          ++ (if Variant.maxV.reports then droppedOf cfgC5 [⟨1, 1⟩] else []) := by
  have h := c5_retry_and_drop .maxV cfgC5 traceC5 [⟨1, 1⟩] (by decide)
  exact ⟨by decide, h.1, h.2.1⟩

/-- C6 (confirmed): a call of `flushQueue` while a send is in progress,
or while the queue is empty, or while the network is unreachable, returns
the state unchanged (no batch removed, no reordering, `isSending` not
set); and when none of the three guards holds, the flush proceeds
normally: it sets `isSending` and splices the head batch out of the
queue. -/
theorem c6_flush_gating (cfg : Config) (s : PState) :
    (∀ online, s.isSending = true → flushStartFn cfg online s = s) ∧
      (∀ online, s.eventQueue = [] → flushStartFn cfg online s = s) ∧
      flushStartFn cfg false s = s ∧
      (s.isSending = false → s.eventQueue ≠ [] →
        flushStartFn cfg true s =
          { s with
            isSending := true
            inflight := some (s.eventQueue.take cfg.maxBatchSize)
            eventQueue := s.eventQueue.drop cfg.maxBatchSize }) :=
  ⟨fun o h => flushStartFn_sending cfg o s h,
   fun o h => flushStartFn_empty cfg o s h,
   flushStartFn_offline cfg s,
   fun h1 h2 => flushStartFn_proceed cfg s h1 h2⟩

/-- C6 witness: on the state holding one recorded event, an offline flush
is a no-op and the first online flush proceeds normally. -/
theorem c6_flush_gating_witness :
    flushStartFn cfgC6 false stC6 = stC6 ∧
      stC6.isSending = false ∧ stC6.eventQueue ≠ [] ∧
      flushStartFn cfgC6 true stC6 =
        { stC6 with
          isSending := true
          inflight := some (stC6.eventQueue.take cfgC6.maxBatchSize)
          eventQueue := stC6.eventQueue.drop cfgC6.maxBatchSize } :=
  ⟨(c6_flush_gating cfgC6 stC6).2.2.1, by decide, by decide,
   (c6_flush_gating cfgC6 stC6).2.2.2 (by decide) (by decide)⟩

/-- C7 (confirmed): `enqueue` on a queue at `maxQueueSize` drops exactly
the head (oldest) element and appends the new event at the tail; it is a
total function (never blocks, never fails). -/
theorem c7_enqueue_full (cfg : Config) (q : List Event) (e : Event)
    (h : q.length = cfg.maxQueueSize) :
    enqueue cfg q e = q.tail ++ [e] := by
  simp [enqueue, h]

/-- C7 witness: with `maxQueueSize = 3`, recording events 1, 2, 3, 4 in
order leaves the queue holding exactly events 2, 3, 4 in order. -/
theorem c7_enqueue_full_witness :
    List.foldl (enqueue cfgC7) []
        [⟨1, 0⟩, ⟨2, 0⟩, ⟨3, 0⟩, ⟨4, 0⟩] = [⟨2, 0⟩, ⟨3, 0⟩, ⟨4, 0⟩] ∧
      ([⟨1, 0⟩, ⟨2, 0⟩, ⟨3, 0⟩] : List Event).length = cfgC7.maxQueueSize ∧
      enqueue cfgC7 [⟨1, 0⟩, ⟨2, 0⟩, ⟨3, 0⟩] ⟨4, 0⟩
        = ([⟨1, 0⟩, ⟨2, 0⟩, ⟨3, 0⟩] : List Event).tail ++ [⟨4, 0⟩] :=
  ⟨by decide, by decide, c7_enqueue_full cfgC7 [⟨1, 0⟩, ⟨2, 0⟩, ⟨3, 0⟩] ⟨4, 0⟩ (by decide)⟩

/-- C8 (confirmed): in every reachable state of every variant at most one
retry timer is pending: `handleFailedBatch` always does
`clearTimeout(this.retryTimer)` before `setTimeout`, cancelling the only
previously pending retry timer. -/
theorem c8_at_most_one_timer (v : Variant) (cfg : Config) (ls : List Label) :
    (run v cfg ls).pendingTimers.length ≤ 1 := by
  rcases timerInv_run v cfg ls with h | ⟨hh, d, _, hp⟩
  · simp [h]
  · simp [hp]

/-- C9 (confirmed): whenever a send of a batch fails on a reachable state,
`handleFailedBatch` leaves exactly one pending retry timer — even when
every event of the batch was dropped — whose delay `batchDelay` is computed
from the whole failed batch, dropped events included; and a flush fired on
an empty queue is a no-op. -/
theorem c9_one_retry_timer (v : Variant) (cfg : Config) (ls : List Label)
    (batch : List Event) (online : Bool) (s2 : PState)
    (h : (run v cfg ls).inflight = some batch)
    (hq : s2.eventQueue = []) :
    (run v cfg (ls ++ [.complete false])).pendingTimers
        = [((run v cfg ls).nextTimerId, batchDelay v cfg batch)] ∧
      flushStartFn cfg online s2 = s2 :=
  ⟨run_complete_false_pendingTimers v cfg ls batch h,
   flushStartFn_empty cfg online s2 hq⟩

/-- C9 witness: a batch whose only event exceeds `maxRetries`, so nothing
is requeued, still schedules exactly one retry timer; the retry flush on
the now-empty queue is a no-op. -/
theorem c9_one_retry_timer_witness :
    (run .firstV cfgC9 traceC9).inflight = some [⟨1, 1⟩] ∧
      cfgC9.maxRetries < (bumpRC ⟨1, 1⟩).retryCount ∧
      (run .firstV cfgC9 (traceC9 ++ [.complete false])).eventQueue = [] ∧
      (run .firstV cfgC9 (traceC9 ++ [.complete false])).pendingTimers
        = [((run .firstV cfgC9 traceC9).nextTimerId,
            batchDelay .firstV cfgC9 [⟨1, 1⟩])] ∧
      flushStartFn cfgC9 true (run .firstV cfgC9 (traceC9 ++ [.complete false]))
        = run .firstV cfgC9 (traceC9 ++ [.complete false]) := by
  have h := c9_one_retry_timer .firstV cfgC9 traceC9 [⟨1, 1⟩] true
    (run .firstV cfgC9 (traceC9 ++ [.complete false])) (by decide) (by decide)
  exact ⟨by decide, by decide, by decide, h.1, h.2⟩

/-- C10 (confirmed): the `/telemetry` handler turns a non-array body into
the single-element batch `[body]`, inserts the events one at a time in
batch order, keeps every row inserted before the first failure (no
rollback), and answers `ok: true` exactly when every insert succeeded and
500 otherwise. -/
theorem c10_ingest {α : Type} (insOk : α → Bool) (db : List α) (body : Body α) :
    handleTelemetry insOk db body
        = (db ++ body.toEvents.takeWhile insOk,
           if body.toEvents.all insOk then Resp.ok else Resp.err500) ∧
      (∀ e : α, handleTelemetry insOk db (Body.single e)
        = handleTelemetry insOk db (Body.arr [e])) :=
  ⟨insertLoop_spec insOk body.toEvents db, fun _ => rfl⟩

end VideoTelemetry
